import Mathlib

/-!
Shallow embedding of the meeting-session orchestrator of `wsassistant`
(`src/server/src/meeting/MeetingManager.ts` together with the shared data
model of `src/shared/src/types.ts`).

Modelling conventions:
* JavaScript `Map` objects are association lists `List (String × α)`;
  `Map.get` is the first matching entry, `Map.set` replaces in place or
  appends, `Map.delete` filters the key out.
* `Set<string>` (the bound clients of a meeting) is a duplicate-free
  `List String`; deletion is a filter.
* Byte buffers (`ArrayBuffer`) are `List Nat`; timestamps and
  millisecond durations are `Nat`; the float confidence score is `ℚ`.
* The external services (`storage`, `transcription`, `summary`, `email`)
  are parameters: each call either returns a value or throws, modelled
  with `Except String`.  Every operation of the manager returns, besides
  the updated manager state, an `Effects` record listing the adapter
  calls it made and the messages it sent to clients, so that claims
  about "the adapter is not invoked" or "no event is broadcast" are
  statable.
* `async` methods are modelled as running to completion sequentially.
  The un-`await`ed `endMeeting` inside `handleClientDisconnect` is
  modelled as running to completion as well; a rejection of that
  promise is unhandled in the source, so the disconnect handler keeps
  the state as mutated so far and discards the error.
-/

namespace WSAssistant

/-- `Participant` from `src/shared/src/types.ts` (`email?:` is optional). -/
structure Participant where
  id : String
  name : String
  email : Option String
  isSelf : Bool
deriving Repr, DecidableEq

/-- `MeetingInfo` from `src/shared/src/types.ts`; `language` is one of the
`LanguageMode` strings `"EN" | "AR" | "MIX"`. -/
structure MeetingInfo where
  id : String
  title : String
  startTime : Nat
  participants : List Participant
  language : String
deriving Repr, DecidableEq

/-- `TranscriptChunk` from `src/shared/src/types.ts`. -/
structure TranscriptChunk where
  id : String
  startTime : Nat
  endTime : Nat
  speakerId : String
  speakerName : String
  text : String
  confidence : ℚ
  language : Option String
deriving Repr, DecidableEq

/-- `Summary` from `src/shared/src/types.ts`. -/
structure Summary where
  id : String
  startTime : Nat
  endTime : Nat
  bullets : List String
  keyPoints : List String
  timestamp : Nat
deriving Repr, DecidableEq

/-- `ActionItem` from `src/shared/src/types.ts`. -/
structure ActionItem where
  id : String
  text : String
  assignee : Option String
  dueDate : Option Nat
  priority : String
deriving Repr, DecidableEq

/-- `Decision` from `src/shared/src/types.ts`. -/
structure Decision where
  id : String
  text : String
  context : String
  timestamp : Nat
deriving Repr, DecidableEq

/-- `MeetingMinutes` from `src/shared/src/types.ts`. -/
structure MeetingMinutes where
  meetingInfo : MeetingInfo
  transcript : List TranscriptChunk
  summaries : List Summary
  actionItems : List ActionItem
  decisions : List Decision
  createdAt : Nat
deriving Repr, DecidableEq

/-- The outbound websocket messages the manager sends
(`status`, `transcript`, `summary` variants of `WSMessage`). -/
inductive WSMessage where
  | status (recording : Bool) (transcribing : Bool) (connected : Bool)
  | transcript (chunk : TranscriptChunk)
  | summary (s : Summary)
deriving Repr, DecidableEq

/-- The private `AudioBuffer` record of `MeetingManager.ts`:
raw bytes plus the sender-reported capture timestamp. -/
structure AudioBuffer where
  data : List Nat
  timestamp : Nat
deriving Repr, DecidableEq

/-- The private `VideoChunk` record of `MeetingManager.ts`. -/
structure VideoChunk where
  data : List Nat
  timestamp : Nat
deriving Repr, DecidableEq

/-- The private `ActiveMeeting` record of `MeetingManager.ts`. -/
structure ActiveMeeting where
  info : MeetingInfo
  startTime : Nat
  clients : List String
  audioBuffers : List AudioBuffer
  videoChunks : List VideoChunk
  transcript : List TranscriptChunk
  summaries : List Summary
  lastSummaryTime : Nat
deriving Repr, DecidableEq

/-- The two `Map` fields of `MeetingManager`:
`activeMeetings : Map<meetingId, ActiveMeeting>` and
`clientMeetings : Map<clientId, meetingId>`. -/
structure ManagerState where
  activeMeetings : List (String × ActiveMeeting)
  clientMeetings : List (String × String)
deriving Repr, DecidableEq

/-- `Map.get`: the value of the first entry with the given key. -/
def mapGet {α : Type} (m : List (String × α)) (k : String) : Option α :=
  (m.find? (fun p => p.1 == k)).map (fun p => p.2)

/-- `Map.set`: replace the entry in place if the key is present,
otherwise append a new entry. -/
def mapSet {α : Type} (m : List (String × α)) (k : String) (v : α) :
    List (String × α) :=
  if (m.find? (fun p => p.1 == k)).isSome then
    m.map (fun p => if p.1 == k then (k, v) else p)
  else
    m ++ [(k, v)]

/-- `Map.delete`: remove every entry with the given key. -/
def mapDelete {α : Type} (m : List (String × α)) (k : String) :
    List (String × α) :=
  m.filter (fun p => p.1 != k)

/-- The external services handed to the `MeetingManager` constructor.
Each field models one adapter method the manager calls; a thrown
exception is an `Except.error`. -/
structure Services where
  transcribe : List Nat → String → Except String (List TranscriptChunk)
  summarize : List TranscriptChunk → Nat → Nat → Except String Summary
  saveMeeting : MeetingMinutes → Except String Unit
  sendMeetingMinutes : MeetingMinutes → Except String Unit

/-- Observable side effects of one manager operation: the adapter calls
it issued (with their arguments) and the events it sent to the clients
of a meeting. -/
structure Effects where
  transcribeCalls : List (List Nat)
  summarizeCalls : List (List TranscriptChunk × Nat × Nat)
  saveCalls : List MeetingMinutes
  emailCalls : List MeetingMinutes
  sentMessages : List (String × WSMessage)
deriving Repr, DecidableEq

/-- No side effects. -/
def noEffects : Effects := ⟨[], [], [], [], []⟩

/-- `calculateAudioDuration` (MeetingManager.ts:266-268): the "cumulative
duration" of the pending buffers is the sum of their `timestamp` fields. -/
def calculateAudioDuration (buffers : List AudioBuffer) : Nat :=
  buffers.foldl (fun total buffer => total + buffer.timestamp) 0

/-- `mergeAudioBuffers` (MeetingManager.ts:270-281): writes each
fragment's bytes at the running offset of a buffer of the total length,
i.e. concatenates the byte lists in list order. -/
def mergeAudioBuffers (buffers : List AudioBuffer) : List Nat :=
  buffers.foldl (fun result buffer => result ++ buffer.data) []

/-- JavaScript `x || d` for an optional string `x`: the empty string is
falsy, so both `undefined` and `""` fall back to the default. -/
def jsOrElse (s : Option String) (d : String) : String :=
  match s with
  | some v => if v = "" then d else v
  | none => d

/-- JavaScript truthiness of an optional string (`p.email` in
`participants.some(p => p.email)`). -/
def jsTruthy (s : Option String) : Bool :=
  match s with
  | some v => v != ""
  | none => false

/-- `mapSpeakers` (MeetingManager.ts:283-292):
`speakerName := participants.find(p => p.id === chunk.speakerId)?.name || 'Unknown Speaker'`. -/
def mapSpeakers (chunks : List TranscriptChunk) (participants : List Participant) :
    List TranscriptChunk :=
  chunks.map (fun chunk =>
    { chunk with
      speakerName :=
        jsOrElse ((participants.find? (fun p => p.id == chunk.speakerId)).map
          (fun p => p.name)) "Unknown Speaker" })

/-- `sendToMeetingClients` (MeetingManager.ts:257-264): emits the event
for the meeting if it is active, otherwise does nothing. -/
def sendToMeetingClients (st : ManagerState) (meetingId : String)
    (message : WSMessage) : List (String × WSMessage) :=
  match mapGet st.activeMeetings meetingId with
  | none => []
  | some _ => [(meetingId, message)]

/-- `startMeeting` (MeetingManager.ts:30-66): unconditionally installs a
fresh `ActiveMeeting` under `meetingInfo.id` (overwriting any active
meeting with that id), binds the client, and sends a status event. -/
def startMeeting (st : ManagerState) (meetingInfo : MeetingInfo)
    (clientId : String) (now : Nat) : ManagerState × Effects :=
  let activeMeeting : ActiveMeeting :=
    { info := meetingInfo
      startTime := now
      clients := [clientId]
      audioBuffers := []
      videoChunks := []
      transcript := []
      summaries := []
      lastSummaryTime := 0 }
  let st2 : ManagerState :=
    { activeMeetings := mapSet st.activeMeetings meetingInfo.id activeMeeting
      clientMeetings := mapSet st.clientMeetings clientId meetingInfo.id }
  (st2, { noEffects with
            sentMessages :=
              sendToMeetingClients st2 meetingInfo.id (WSMessage.status true true true) })

/-- `processAudioForTranscription` (MeetingManager.ts:109-144): merge the
pending buffers, call the transcription adapter; on success map speakers,
append to the transcript, send one `transcript` event per chunk and clear
the pending buffers; on failure catch, log and leave everything as is. -/
def processAudioForTranscription (svc : Services) (st : ManagerState)
    (meetingId : String) : ManagerState × Effects :=
  match mapGet st.activeMeetings meetingId with
  | none => (st, noEffects)
  | some meeting =>
    if meeting.audioBuffers.isEmpty then (st, noEffects)
    else
      let mergedAudio := mergeAudioBuffers meeting.audioBuffers
      match svc.transcribe mergedAudio meeting.info.language with
      | Except.error _ =>
        (st, { noEffects with transcribeCalls := [mergedAudio] })
      | Except.ok transcriptChunks =>
        let mappedChunks := mapSpeakers transcriptChunks meeting.info.participants
        let meeting2 : ActiveMeeting :=
          { meeting with
            transcript := meeting.transcript ++ mappedChunks
            audioBuffers := [] }
        let st2 : ManagerState :=
          { st with activeMeetings := mapSet st.activeMeetings meetingId meeting2 }
        (st2, { noEffects with
                  transcribeCalls := [mergedAudio]
                  sentMessages :=
                    mappedChunks.map (fun chunk => (meetingId, WSMessage.transcript chunk)) })

/-- `processAudioChunk` (MeetingManager.ts:68-90): if the meeting is not
active, return silently; otherwise append the fragment and, once the
cumulative duration reaches 10000 ms, run the transcription flush. -/
def processAudioChunk (svc : Services) (st : ManagerState) (meetingId : String)
    (audioBuffer : List Nat) (timestamp : Nat) : ManagerState × Effects :=
  match mapGet st.activeMeetings meetingId with
  | none => (st, noEffects)
  | some meeting =>
    let meeting2 : ActiveMeeting :=
      { meeting with audioBuffers := meeting.audioBuffers ++ [⟨audioBuffer, timestamp⟩] }
    let st2 : ManagerState :=
      { st with activeMeetings := mapSet st.activeMeetings meetingId meeting2 }
    if calculateAudioDuration meeting2.audioBuffers ≥ 10000 then
      processAudioForTranscription svc st2 meetingId
    else
      (st2, noEffects)

/-- `generateSummary` (MeetingManager.ts:164-195), the body of one
scheduler tick at time `currentTime`: slice the transcript at the
watermark `lastSummaryTime`; if the window is empty return silently;
otherwise call the summary adapter, and on success append the summary,
advance the watermark to `currentTime` and broadcast; on failure catch,
log and leave everything as is. -/
def generateSummary (svc : Services) (st : ManagerState) (meetingId : String)
    (currentTime : Nat) : ManagerState × Effects :=
  match mapGet st.activeMeetings meetingId with
  | none => (st, noEffects)
  | some meeting =>
    let recentTranscript :=
      meeting.transcript.filter (fun chunk => chunk.startTime ≥ meeting.lastSummaryTime)
    if recentTranscript.isEmpty then (st, noEffects)
    else
      match svc.summarize recentTranscript meeting.lastSummaryTime currentTime with
      | Except.error _ =>
        (st, { noEffects with
                 summarizeCalls := [(recentTranscript, meeting.lastSummaryTime, currentTime)] })
      | Except.ok summary =>
        let meeting2 : ActiveMeeting :=
          { meeting with
            summaries := meeting.summaries ++ [summary]
            lastSummaryTime := currentTime }
        let st2 : ManagerState :=
          { st with activeMeetings := mapSet st.activeMeetings meetingId meeting2 }
        (st2, { noEffects with
                  summarizeCalls := [(recentTranscript, meeting.lastSummaryTime, currentTime)]
                  sentMessages := [(meetingId, WSMessage.summary summary)] })

/-- The final `MeetingMinutes` aggregate `endMeeting` assembles
(MeetingManager.ts:209-216): action items and decisions are left empty
(`TODO` in the source), `createdAt` is the teardown time. -/
def finalMinutes (meeting : ActiveMeeting) (now : Nat) : MeetingMinutes :=
  { meetingInfo := meeting.info
    transcript := meeting.transcript
    summaries := meeting.summaries
    actionItems := []
    decisions := []
    createdAt := now }

/-- `endMeeting` (MeetingManager.ts:197-237): assemble the final
`MeetingMinutes`, `await` the storage save, then (if some participant has
a truthy email) `await` the email send — neither call is wrapped in a
try/catch, so a failure rethrows to the caller with the maps untouched —
and only then delete the meeting and its client bindings.
Returns the state after the call, the normal/thrown outcome, and the
effects. -/
def endMeeting (svc : Services) (st : ManagerState) (meetingId : String)
    (now : Nat) : ManagerState × Except String Unit × Effects :=
  match mapGet st.activeMeetings meetingId with
  | none => (st, Except.ok (), noEffects)
  | some meeting =>
    let meetingMinutes : MeetingMinutes := finalMinutes meeting now
    match svc.saveMeeting meetingMinutes with
    | Except.error e =>
      (st, Except.error e, { noEffects with saveCalls := [meetingMinutes] })
    | Except.ok _ =>
      let sendEmail := meeting.info.participants.any (fun p => jsTruthy p.email)
      let emailResult : Except String Unit :=
        if sendEmail then svc.sendMeetingMinutes meetingMinutes else Except.ok ()
      let effects : Effects :=
        { noEffects with
            saveCalls := [meetingMinutes]
            emailCalls := if sendEmail then [meetingMinutes] else [] }
      match emailResult with
      | Except.error e => (st, Except.error e, effects)
      | Except.ok _ =>
        ({ activeMeetings := mapDelete st.activeMeetings meetingId
           clientMeetings := st.clientMeetings.filter (fun p => p.2 != meetingId) },
         Except.ok (), effects)

/-- `handleClientDisconnect` (MeetingManager.ts:239-255): unbind the
client from its meeting; if that empties the meeting's client set, run
`endMeeting` (un-`await`ed in the source: a rejection is an unhandled
promise rejection, so the caller sees no error either way). -/
def handleClientDisconnect (svc : Services) (st : ManagerState)
    (clientId : String) (now : Nat) : ManagerState × Effects :=
  match mapGet st.clientMeetings clientId with
  | none => (st, noEffects)
  | some meetingId =>
    match mapGet st.activeMeetings meetingId with
    | none => (st, noEffects)
    | some meeting =>
      let meeting2 : ActiveMeeting :=
        { meeting with clients := meeting.clients.filter (fun c => c != clientId) }
      let st2 : ManagerState :=
        { activeMeetings := mapSet st.activeMeetings meetingId meeting2
          clientMeetings := mapDelete st.clientMeetings clientId }
      if meeting2.clients.isEmpty then
        let r := endMeeting svc st2 meetingId now
        (r.1, r.2.2)
      else
        (st2, noEffects)

/-- One summary-scheduler tick per list element, in order; each tick
carries its own adapter behaviour and tick time (`Date.now()`). -/
def runTicks (st : ManagerState) (meetingId : String) :
    List (Services × Nat) → ManagerState
  | [] => st
  | tick :: rest =>
    runTicks (generateSummary tick.1 st meetingId tick.2).1 meetingId rest

/-! ### Concrete sample data used by witnesses and counterexamples -/

/-- A services bundle whose adapters all succeed; `transcribe` returns no
chunks and `summarize` returns a fixed summary. -/
def demoSummary : Summary := ⟨"s1", 0, 30, ["point"], ["kw"], 30⟩

def demoServices : Services :=
  { transcribe := fun _ _ => Except.ok []
    summarize := fun _ _ _ => Except.ok demoSummary
    saveMeeting := fun _ => Except.ok ()
    sendMeetingMinutes := fun _ => Except.ok () }

/-- A services bundle whose transcription adapter throws. -/
def failingTranscribeServices : Services :=
  { transcribe := fun _ _ => Except.error "stt down"
    summarize := fun _ _ _ => Except.error "down"
    saveMeeting := fun _ => Except.ok ()
    sendMeetingMinutes := fun _ => Except.ok () }

/-- A services bundle whose storage save and summarizer throw. -/
def failingSaveServices : Services :=
  { transcribe := fun _ _ => Except.ok []
    summarize := fun _ _ _ => Except.error "down"
    saveMeeting := fun _ => Except.error "disk full"
    sendMeetingMinutes := fun _ => Except.ok () }

/-- A services bundle whose email send throws. -/
def failingEmailServices : Services :=
  { transcribe := fun _ _ => Except.ok []
    summarize := fun _ _ _ => Except.error "down"
    saveMeeting := fun _ => Except.ok ()
    sendMeetingMinutes := fun _ => Except.error "smtp down" }

def demoInfo : MeetingInfo :=
  ⟨"m1", "standup", 0, [⟨"p1", "Alice", some "alice@example.com", false⟩], "EN"⟩

/-- A freshly started meeting for `demoInfo` with two bound clients. -/
def demoMeeting : ActiveMeeting :=
  ⟨demoInfo, 0, ["c1", "c2"], [], [], [], [], 0⟩

def demoState : ManagerState :=
  ⟨[("m1", demoMeeting)], [("c1", "m1"), ("c2", "m1")]⟩

def demoChunk : TranscriptChunk := ⟨"t1", 5, 9, "p1", "Alice", "hi", 1, none⟩

/-- A meeting that already holds one transcript chunk. -/
def busyMeeting : ActiveMeeting :=
  ⟨demoInfo, 0, ["c1"], [], [], [demoChunk], [], 0⟩

def busyState : ManagerState := ⟨[("m1", busyMeeting)], [("c1", "m1")]⟩

/-- A meeting with one pending audio fragment already past the threshold. -/
def pendingMeeting : ActiveMeeting :=
  ⟨demoInfo, 0, ["c1"], [⟨[7, 8], 10500⟩], [], [], [], 0⟩

def pendingState : ManagerState := ⟨[("m1", pendingMeeting)], [("c1", "m1")]⟩

def emptyNameParticipant : Participant := ⟨"p1", "", none, false⟩

def unnamedChunk : TranscriptChunk := ⟨"t2", 0, 1, "p1", "", "hello", 1, none⟩

/-! ### Association-list lemmas -/

theorem find?_map_replace {α : Type} (k : String) (v : α) :
    ∀ (m : List (String × α)),
      (m.find? (fun p => p.1 == k)).isSome = true →
      (m.map (fun p => if p.1 == k then (k, v) else p)).find? (fun p => p.1 == k)
        = some (k, v)
  | [], h => by simp [List.find?] at h
  | p :: m, h => by
    by_cases hp : p.1 = k
    · simp [hp, List.find?_cons_of_pos]
    · have hpk : (p.1 == k) = false := beq_false_of_ne hp
      rw [List.find?_cons_of_neg _ (by simp [hpk])] at h
      simp only [List.map_cons, if_neg (by simp [hpk] : ¬ (p.1 == k) = true)]
      rw [List.find?_cons_of_neg _ (by simp [hpk])]
      exact find?_map_replace k v m h

theorem mapGet_mapSet_self {α : Type} (m : List (String × α)) (k : String) (v : α) :
    mapGet (mapSet m k v) k = some v := by
  unfold mapSet
  by_cases hfind : (m.find? (fun p => p.1 == k)).isSome = true
  · rw [if_pos hfind]
    unfold mapGet
    rw [find?_map_replace k v m hfind]
    rfl
  · rw [if_neg hfind]
    unfold mapGet
    rw [List.find?_append]
    have hnone : m.find? (fun p => p.1 == k) = none := by
      cases h : m.find? (fun p => p.1 == k) with
      | none => rfl
      | some p => rw [h] at hfind; simp at hfind
    rw [hnone]
    simp [List.find?]

theorem mapGet_mapSet_ne {α : Type} (m : List (String × α)) (k k' : String)
    (v : α) (h : k ≠ k') : mapGet (mapSet m k v) k' = mapGet m k' := by
  unfold mapSet
  by_cases hfind : (m.find? (fun p => p.1 == k)).isSome = true
  · rw [if_pos hfind]
    unfold mapGet
    congr 1
    clear hfind
    induction m with
    | nil => rfl
    | cons p m ih =>
      by_cases hp : p.1 = k
      · have h1 : (p.1 == k') = false := beq_false_of_ne (by rw [hp]; exact h)
        have h2 : ((k, v).1 == k') = false := beq_false_of_ne h
        simp only [List.map_cons, if_pos (by simp [hp] : (p.1 == k) = true)]
        rw [List.find?_cons_of_neg _ (by simp [h2]),
          List.find?_cons_of_neg _ (by simp [h1])]
        exact ih
      · have hpk : (p.1 == k) = false := beq_false_of_ne hp
        simp only [List.map_cons, if_neg (by simp [hpk] : ¬ (p.1 == k) = true)]
        by_cases hp' : p.1 = k'
        · rw [List.find?_cons_of_pos _ (by simp [hp']),
            List.find?_cons_of_pos _ (by simp [hp'])]
        · rw [List.find?_cons_of_neg _ (by simp [beq_false_of_ne hp']),
            List.find?_cons_of_neg _ (by simp [beq_false_of_ne hp'])]
          exact ih
  · rw [if_neg hfind]
    unfold mapGet
    rw [List.find?_append]
    have h2 : ([(k, v)].find? (fun p => p.1 == k')) = none := by
      simp [List.find?, beq_false_of_ne h]
    rw [h2]
    cases hm : m.find? (fun p => p.1 == k') <;> simp

theorem mapGet_mapDelete_self {α : Type} (m : List (String × α)) (k : String) :
    mapGet (mapDelete m k) k = none := by
  unfold mapGet mapDelete
  induction m with
  | nil => rfl
  | cons p m ih =>
    by_cases hp : p.1 = k
    · simp only [List.filter, beq_iff_eq, hp, bne_self_eq_false]
      exact ih
    · have hpk : (p.1 == k) = false := beq_false_of_ne hp
      simp only [List.filter, hpk, bne, Bool.not_false]
      rw [List.find?_cons_of_neg _ (by simp [hpk])]
      exact ih

theorem mapGet_mapDelete_ne {α : Type} (m : List (String × α)) (k k' : String)
    (h : k ≠ k') : mapGet (mapDelete m k) k' = mapGet m k' := by
  unfold mapGet mapDelete
  congr 1
  induction m with
  | nil => rfl
  | cons p m ih =>
    by_cases hp : p.1 = k
    · have h1 : (p.1 == k') = false := beq_false_of_ne (by rw [hp]; exact h)
      have hpk : (p.1 == k) = true := by simp [hp]
      simp only [List.filter, hpk, bne, Bool.not_true]
      rw [List.find?_cons_of_neg _ (by simp [h1])]
      exact ih
    · have hpk : (p.1 == k) = false := beq_false_of_ne hp
      simp only [List.filter, hpk, bne, Bool.not_false]
      by_cases hp' : p.1 = k'
      · rw [List.find?_cons_of_pos _ (by simp [hp']),
          List.find?_cons_of_pos _ (by simp [hp'])]
      · rw [List.find?_cons_of_neg _ (by simp [beq_false_of_ne hp']),
          List.find?_cons_of_neg _ (by simp [beq_false_of_ne hp'])]
        exact ih

/-! ### Merge lemmas -/

theorem foldl_append_data : ∀ (bs : List AudioBuffer) (acc : List Nat),
    bs.foldl (fun result buffer => result ++ buffer.data) acc
      = acc ++ (bs.map (fun b => b.data)).flatten
  | [], acc => by simp
  | b :: bs, acc => by
    simp only [List.foldl_cons, List.map_cons, List.flatten,
      foldl_append_data bs (acc ++ b.data), List.append_assoc]

theorem mergeAudioBuffers_eq_join (bs : List AudioBuffer) :
    mergeAudioBuffers bs = (bs.map (fun b => b.data)).flatten := by
  unfold mergeAudioBuffers
  rw [foldl_append_data]
  simp

/-! ### C8 — merged buffer is byte concatenation in arrival order -/

/-- C8: for every non-empty pending-fragment list, the merged buffer is
the byte concatenation of the fragments' bytes in list (arrival) order,
its length is the sum of the fragments' byte lengths, and the capture
timestamps have no influence on the result. -/
theorem mergeAudioBuffers_concat_spec (buffers : List AudioBuffer)
    (_hne : buffers ≠ []) :
    mergeAudioBuffers buffers = (buffers.map (fun b => b.data)).flatten ∧
    (mergeAudioBuffers buffers).length
      = (buffers.map (fun b => b.data.length)).sum ∧
    ∀ retime : AudioBuffer → Nat,
      mergeAudioBuffers (buffers.map (fun b => ⟨b.data, retime b⟩))
        = mergeAudioBuffers buffers := by
  refine ⟨mergeAudioBuffers_eq_join buffers, ?_, ?_⟩
  · rw [mergeAudioBuffers_eq_join, List.length_flatten, List.map_map]
    rfl
  · intro retime
    rw [mergeAudioBuffers_eq_join, mergeAudioBuffers_eq_join, List.map_map]
    rfl

theorem mergeAudioBuffers_concat_spec_witness :
    ([⟨[1, 2], 5⟩, ⟨[3], 7⟩] : List AudioBuffer) ≠ [] ∧
    mergeAudioBuffers [⟨[1, 2], 5⟩, ⟨[3], 7⟩] = [1, 2, 3] := by
  refine ⟨by decide, ?_⟩
  rw [(mergeAudioBuffers_concat_spec [⟨[1, 2], 5⟩, ⟨[3], 7⟩] (by decide)).1]
  decide

/-! ### C9 — audio chunk for an unknown meeting id is a silent no-op -/

/-- C9: ingesting an audio chunk for a meeting id absent from the
active-meetings map changes nothing: the state is returned unchanged,
no adapter is called, no message is sent, and the operation returns
normally. -/
theorem processAudioChunk_unknown_meeting (svc : Services) (st : ManagerState)
    (meetingId : String) (data : List Nat) (timestamp : Nat)
    (h : mapGet st.activeMeetings meetingId = none) :
    processAudioChunk svc st meetingId data timestamp = (st, noEffects) := by
  unfold processAudioChunk
  rw [h]

theorem processAudioChunk_unknown_meeting_witness :
    processAudioChunk demoServices demoState "ghost" [1] 5
      = (demoState, noEffects) :=
  processAudioChunk_unknown_meeting demoServices demoState "ghost" [1] 5 (by decide)

/-! ### C7 — empty summary window is a no-op tick -/

/-- C7: on a scheduler tick whose window (transcript chunks with
`startTime ≥ lastSummaryTime`) is empty, the tick does nothing: the
summarizer is not invoked, nothing is broadcast, and the state
(summaries and watermark included) is unchanged. -/
theorem generateSummary_empty_window_noop (svc : Services) (st : ManagerState)
    (meetingId : String) (currentTime : Nat) (meeting : ActiveMeeting)
    (hm : mapGet st.activeMeetings meetingId = some meeting)
    (hwin : meeting.transcript.filter
        (fun chunk => chunk.startTime ≥ meeting.lastSummaryTime) = []) :
    generateSummary svc st meetingId currentTime = (st, noEffects) := by
  unfold generateSummary
  rw [hm]
  simp [hwin]

theorem generateSummary_empty_window_noop_witness :
    generateSummary demoServices demoState "m1" 99 = (demoState, noEffects) :=
  generateSummary_empty_window_noop demoServices demoState "m1" 99 demoMeeting
    (by decide) (by decide)

/-! ### C3 — duplicate start does not fail; it replaces the session -/

/-- C3 counterexample: with session `"m1"` active and holding one
transcript chunk, a second start request for id `"m1"` does not fail
with `DuplicateSession`: it completes normally and replaces the existing
session with a fresh one bound only to the new client, destroying the
previous transcript. -/
theorem startMeeting_duplicate_counterexample :
    mapGet busyState.activeMeetings "m1" = some busyMeeting ∧
    busyMeeting.transcript ≠ [] ∧
    mapGet (startMeeting busyState demoInfo "c9" 50).1.activeMeetings "m1"
      = some ⟨demoInfo, 50, ["c9"], [], [], [], [], 0⟩ ∧
    mapGet (startMeeting busyState demoInfo "c9" 50).1.activeMeetings "m1"
      ≠ some busyMeeting := by
  refine ⟨by decide, by decide, by decide, by decide⟩

/-- C3 amended: a start request for an id that is already active does
not fail and does not preserve the existing session: it unconditionally
installs a fresh session (empty buffers, transcript and summaries,
watermark 0) under that id, bound to the requesting client alone, and
maps that client to the session. -/
theorem startMeeting_overwrites (st : ManagerState) (info : MeetingInfo)
    (clientId : String) (now : Nat) :
    mapGet (startMeeting st info clientId now).1.activeMeetings info.id
      = some ⟨info, now, [clientId], [], [], [], [], 0⟩ ∧
    mapGet (startMeeting st info clientId now).1.clientMeetings clientId
      = some info.id := by
  unfold startMeeting
  exact ⟨mapGet_mapSet_self _ _ _, mapGet_mapSet_self _ _ _⟩

/-! ### Duration and single-step lemmas -/

theorem foldl_add_timestamp : ∀ (bs : List AudioBuffer) (acc : Nat),
    bs.foldl (fun total b => total + b.timestamp) acc
      = acc + (bs.map (fun b => b.timestamp)).sum
  | [], acc => by simp
  | b :: bs, acc => by
    simp [foldl_add_timestamp bs (acc + b.timestamp), Nat.add_assoc]

theorem calculateAudioDuration_eq_sum (bs : List AudioBuffer) :
    calculateAudioDuration bs = (bs.map (fun b => b.timestamp)).sum := by
  unfold calculateAudioDuration
  rw [foldl_add_timestamp]
  simp

/-- Appending a fragment that keeps the cumulative duration below the
10000 ms threshold only grows the pending buffer. -/
theorem processAudioChunk_below_threshold (svc : Services) (st : ManagerState)
    (meetingId : String) (meeting : ActiveMeeting) (data : List Nat) (ts : Nat)
    (hm : mapGet st.activeMeetings meetingId = some meeting)
    (hlt : calculateAudioDuration (meeting.audioBuffers ++ [⟨data, ts⟩]) < 10000) :
    processAudioChunk svc st meetingId data ts
      = ({ st with activeMeetings := (mapSet st.activeMeetings meetingId
             ({ meeting with audioBuffers := meeting.audioBuffers ++ [⟨data, ts⟩] })) },
         noEffects) := by
  unfold processAudioChunk
  rw [hm]
  simp [Nat.not_le.mpr hlt]

/-- Appending a fragment that reaches the threshold flushes the window:
the merged bytes go to the transcription adapter and, on success, the
mapped chunks are appended to the transcript, one `transcript` event per
chunk is sent, and the pending buffer is cleared. -/
theorem processAudioChunk_flush_success (svc : Services) (st : ManagerState)
    (meetingId : String) (meeting : ActiveMeeting) (data : List Nat) (ts : Nat)
    (chunks : List TranscriptChunk)
    (hm : mapGet st.activeMeetings meetingId = some meeting)
    (hge : calculateAudioDuration (meeting.audioBuffers ++ [⟨data, ts⟩]) ≥ 10000)
    (hok : svc.transcribe (mergeAudioBuffers (meeting.audioBuffers ++ [⟨data, ts⟩]))
        meeting.info.language = Except.ok chunks) :
    processAudioChunk svc st meetingId data ts
      = ({ st with activeMeetings :=
             (mapSet (mapSet st.activeMeetings meetingId
                 ({ meeting with audioBuffers := meeting.audioBuffers ++ [⟨data, ts⟩] }))
               meetingId
               ({ meeting with
                   transcript := (meeting.transcript
                     ++ mapSpeakers chunks meeting.info.participants)
                   audioBuffers := [] })) },
         { noEffects with
             transcribeCalls := [mergeAudioBuffers (meeting.audioBuffers ++ [⟨data, ts⟩])]
             sentMessages := ((mapSpeakers chunks meeting.info.participants).map
               (fun chunk => (meetingId, WSMessage.transcript chunk))) }) := by
  unfold processAudioChunk processAudioForTranscription
  rw [hm]
  simp [hge, mapGet_mapSet_self, hok]

/-! ### C1 — the 500 ms + 9600 ms window scenario -/

/-- C1: with the 10000 ms threshold, starting from an empty pending
buffer, appending fragment A of duration 500 ms causes no flush (no
adapter call, no message, the buffer now holds exactly A); then
appending fragment B of duration 9600 ms (cumulative 10100 ms) flushes a
window whose merged bytes are the concatenation of A's then B's bytes,
after which the pending fragment list is empty. -/
theorem window_threshold_scenario (svc : Services) (st : ManagerState)
    (meetingId : String) (meeting : ActiveMeeting) (dataA dataB : List Nat)
    (chunks : List TranscriptChunk)
    (hm : mapGet st.activeMeetings meetingId = some meeting)
    (hempty : meeting.audioBuffers = [])
    (hok : svc.transcribe (dataA ++ dataB) meeting.info.language
        = Except.ok chunks) :
    (processAudioChunk svc st meetingId dataA 500).2 = noEffects ∧
    mapGet (processAudioChunk svc st meetingId dataA 500).1.activeMeetings
      meetingId = some { meeting with audioBuffers := [⟨dataA, 500⟩] } ∧
    (processAudioChunk svc (processAudioChunk svc st meetingId dataA 500).1
        meetingId dataB 9600).2.transcribeCalls = [dataA ++ dataB] ∧
    mapGet (processAudioChunk svc (processAudioChunk svc st meetingId dataA 500).1
        meetingId dataB 9600).1.activeMeetings meetingId
      = some { meeting with
                 transcript := (meeting.transcript
                   ++ mapSpeakers chunks meeting.info.participants)
                 audioBuffers := [] } := by
  have h1 : processAudioChunk svc st meetingId dataA 500
      = ({ st with activeMeetings := (mapSet st.activeMeetings meetingId
             ({ meeting with audioBuffers := [⟨dataA, 500⟩] })) }, noEffects) := by
    have hd : calculateAudioDuration (meeting.audioBuffers ++ [⟨dataA, 500⟩]) < 10000 := by
      rw [hempty, calculateAudioDuration_eq_sum]
      simp
    have h := processAudioChunk_below_threshold svc st meetingId meeting dataA 500 hm hd
    rw [hempty] at h
    simpa using h
  have hmerge : mergeAudioBuffers
      (({ meeting with audioBuffers := [⟨dataA, 500⟩] } : ActiveMeeting).audioBuffers
        ++ [⟨dataB, 9600⟩]) = dataA ++ dataB := by
    simp [mergeAudioBuffers_eq_join]
  have h2 : processAudioChunk svc
      ({ st with activeMeetings := (mapSet st.activeMeetings meetingId
          ({ meeting with audioBuffers := [⟨dataA, 500⟩] })) })
      meetingId dataB 9600
      = _ :=
    processAudioChunk_flush_success svc _ meetingId
      ({ meeting with audioBuffers := [⟨dataA, 500⟩] }) dataB 9600 chunks
      (mapGet_mapSet_self _ _ _)
      (by rw [calculateAudioDuration_eq_sum]; simp)
      (by rw [hmerge]; exact hok)
  refine ⟨by rw [h1], by rw [h1]; exact mapGet_mapSet_self _ _ _, ?_, ?_⟩
  · rw [h1]
    show (processAudioChunk svc _ meetingId dataB 9600).2.transcribeCalls = _
    rw [h2]
    simpa using hmerge
  · rw [h1]
    show mapGet (processAudioChunk svc _ meetingId dataB 9600).1.activeMeetings
      meetingId = _
    rw [h2]
    exact mapGet_mapSet_self _ _ _

theorem window_threshold_scenario_witness :
    (processAudioChunk demoServices demoState "m1" [1, 2] 500).2 = noEffects ∧
    mapGet (processAudioChunk demoServices demoState "m1" [1, 2] 500).1.activeMeetings
      "m1" = some { demoMeeting with audioBuffers := [⟨[1, 2], 500⟩] } ∧
    (processAudioChunk demoServices
        (processAudioChunk demoServices demoState "m1" [1, 2] 500).1
        "m1" [3] 9600).2.transcribeCalls = [[1, 2] ++ [3]] ∧
    mapGet (processAudioChunk demoServices
        (processAudioChunk demoServices demoState "m1" [1, 2] 500).1
        "m1" [3] 9600).1.activeMeetings "m1"
      = some { demoMeeting with
                 transcript := (demoMeeting.transcript
                   ++ mapSpeakers [] demoMeeting.info.participants)
                 audioBuffers := [] } :=
  window_threshold_scenario demoServices demoState "m1" demoMeeting [1, 2] [3]
    [] (by decide) (by decide) rfl

/-! ### C2 — transcription failure does NOT discard the window's audio -/

/-- C2 counterexample: a fragment of duration 10500 ms flushes a window;
the transcription adapter is called (one `transcribeCalls` entry) and
throws, yet afterwards the pending audio buffer still holds the window's
fragment — the audio is retained, not discarded, because the
`audioBuffers.splice` sits after the `await transcribe` inside the `try`
block and is skipped on failure. -/
theorem transcription_failure_counterexample :
    (processAudioChunk failingTranscribeServices demoState "m1" [7, 8] 10500).2.transcribeCalls
      = [[7, 8]] ∧
    mapGet (processAudioChunk failingTranscribeServices demoState "m1" [7, 8] 10500).1.activeMeetings "m1"
      = some { demoMeeting with audioBuffers := [⟨[7, 8], 10500⟩] } ∧
    ({ demoMeeting with audioBuffers := [⟨[7, 8], 10500⟩] } : ActiveMeeting).audioBuffers
      ≠ [] := by
  refine ⟨by decide, by decide, by decide⟩

/-- C2 amended: when the transcription adapter call for a flushed window
fails, the window's fragments are retained in the pending buffer rather
than discarded, and everything else holds as claimed: no transcript
chunk is appended, nothing is broadcast, and the session stays active
and otherwise unchanged — the manager state is returned untouched and
the only effect is the failed adapter call itself. -/
theorem transcription_failure_retains_window (svc : Services)
    (st : ManagerState) (meetingId : String) (meeting : ActiveMeeting)
    (e : String)
    (hm : mapGet st.activeMeetings meetingId = some meeting)
    (hne : meeting.audioBuffers.isEmpty = false)
    (hfail : svc.transcribe (mergeAudioBuffers meeting.audioBuffers)
        meeting.info.language = Except.error e) :
    processAudioForTranscription svc st meetingId
      = (st, { noEffects with
                 transcribeCalls := [mergeAudioBuffers meeting.audioBuffers] }) := by
  unfold processAudioForTranscription
  rw [hm]
  simp [hne, hfail]

theorem transcription_failure_retains_window_witness :
    processAudioForTranscription failingTranscribeServices pendingState "m1"
      = (pendingState,
         { noEffects with
             transcribeCalls := [mergeAudioBuffers pendingMeeting.audioBuffers] }) :=
  transcription_failure_retains_window failingTranscribeServices pendingState
    "m1" pendingMeeting "stt down" (by decide) (by decide) rfl

/-! ### C5 — save/email failures DO abort teardown -/

/-- C5 counterexample: with session `"m1"` active, a failing storage
save makes `endMeeting` rethrow the error to its caller and leaves the
session in the registry and the client index untouched — teardown does
not complete. -/
theorem endMeeting_save_failure_counterexample :
    (endMeeting failingSaveServices busyState "m1" 7).2.1
      = Except.error "disk full" ∧
    mapGet (endMeeting failingSaveServices busyState "m1" 7).1.activeMeetings "m1"
      = some busyMeeting ∧
    (endMeeting failingSaveServices busyState "m1" 7).1.clientMeetings
      = busyState.clientMeetings := by
  refine ⟨rfl, by decide, by decide⟩

/-- C5 amended: during teardown, a failure of the persistence save, or
of the notification send when some participant has an email, aborts
teardown: the error propagates to the caller of `endMeeting`, the
session is not removed from the registry, and the client→session index
is unchanged (the whole state is returned untouched). -/
theorem endMeeting_failure_aborts_teardown (svc : Services)
    (st : ManagerState) (meetingId : String) (now : Nat)
    (meeting : ActiveMeeting) (e : String)
    (hm : mapGet st.activeMeetings meetingId = some meeting) :
    (svc.saveMeeting (finalMinutes meeting now) = Except.error e →
      endMeeting svc st meetingId now
        = (st, Except.error e,
           { noEffects with saveCalls := [finalMinutes meeting now] })) ∧
    (svc.saveMeeting (finalMinutes meeting now) = Except.ok () →
     meeting.info.participants.any (fun p => jsTruthy p.email) = true →
     svc.sendMeetingMinutes (finalMinutes meeting now) = Except.error e →
      endMeeting svc st meetingId now
        = (st, Except.error e,
           { noEffects with
               saveCalls := [finalMinutes meeting now]
               emailCalls := [finalMinutes meeting now] })) := by
  constructor
  · intro hsave
    unfold endMeeting
    rw [hm]
    simp [hsave]
  · intro hsave hany hsend
    unfold endMeeting
    rw [hm]
    simp [hsave, hany, hsend]

theorem endMeeting_failure_aborts_teardown_witness :
    (endMeeting failingSaveServices busyState "m1" 7
      = (busyState, Except.error "disk full",
         { noEffects with saveCalls := [finalMinutes busyMeeting 7] })) ∧
    (endMeeting failingEmailServices busyState "m1" 7
      = (busyState, Except.error "smtp down",
         { noEffects with
             saveCalls := [finalMinutes busyMeeting 7]
             emailCalls := [finalMinutes busyMeeting 7] })) :=
  ⟨(endMeeting_failure_aborts_teardown failingSaveServices busyState "m1" 7
      busyMeeting "disk full" (by decide)).1 rfl,
   (endMeeting_failure_aborts_teardown failingEmailServices busyState "m1" 7
      busyMeeting "smtp down" (by decide)).2 rfl (by decide) rfl⟩

/-! ### C10 — speaker mapping and the falsy empty name -/

/-- C10 counterexample: a participant whose id matches the chunk's
`speakerId` but whose name is the empty string exists in the roster, yet
`mapSpeakers` resolves the speaker name to `"Unknown Speaker"` rather
than to that participant's name — JavaScript `||` treats `""` as falsy. -/
theorem mapSpeakers_empty_name_counterexample :
    [emptyNameParticipant].find? (fun q => q.id == unnamedChunk.speakerId)
      = some emptyNameParticipant ∧
    (mapSpeakers [unnamedChunk] [emptyNameParticipant]).map
      (fun c => c.speakerName) = ["Unknown Speaker"] ∧
    (mapSpeakers [unnamedChunk] [emptyNameParticipant]).map
      (fun c => c.speakerName) ≠ [emptyNameParticipant.name] := by
  refine ⟨by decide, by decide, by decide⟩

/-- C10 amended: each chunk returned by the adapter is appended with its
`speakerName` set to the name of the first participant whose id equals
the chunk's `speakerId` provided that name is non-empty, and to
`"Unknown Speaker"` when no participant matches or the matching
participant's name is the empty string; every other field is unchanged. -/
theorem mapSpeakers_spec (chunks : List TranscriptChunk)
    (participants : List Participant) :
    List.Forall₂ (fun r c =>
      (r.id = c.id ∧ r.startTime = c.startTime ∧ r.endTime = c.endTime ∧
       r.speakerId = c.speakerId ∧ r.text = c.text ∧
       r.confidence = c.confidence ∧ r.language = c.language) ∧
      ((∃ p, participants.find? (fun q => q.id == c.speakerId) = some p ∧
          p.name ≠ "" ∧ r.speakerName = p.name) ∨
       (r.speakerName = "Unknown Speaker" ∧
        ∀ p, participants.find? (fun q => q.id == c.speakerId) = some p →
          p.name = "")))
      (mapSpeakers chunks participants) chunks := by
  induction chunks with
  | nil => exact List.Forall₂.nil
  | cons c cs ih =>
    refine List.Forall₂.cons ⟨⟨rfl, rfl, rfl, rfl, rfl, rfl, rfl⟩, ?_⟩ ih
    cases hf : participants.find? (fun q => q.id == c.speakerId) with
    | none =>
      right
      constructor
      · show jsOrElse ((participants.find? (fun q => q.id == c.speakerId)).map
            (fun p => p.name)) "Unknown Speaker" = "Unknown Speaker"
        rw [hf]
        rfl
      · intro p hp
        exact absurd hp (by simp)
    | some p =>
      by_cases hn : p.name = ""
      · right
        constructor
        · show jsOrElse ((participants.find? (fun q => q.id == c.speakerId)).map
              (fun q => q.name)) "Unknown Speaker" = "Unknown Speaker"
          rw [hf]
          simp [jsOrElse, hn]
        · intro q hq
          injection hq with h
          exact h ▸ hn
      · left
        refine ⟨p, rfl, hn, ?_⟩
        show jsOrElse ((participants.find? (fun q => q.id == c.speakerId)).map
            (fun q => q.name)) "Unknown Speaker" = p.name
        rw [hf]
        simp [jsOrElse, hn]

/-! ### C6 — two-client disconnect scenario -/

/-- C6: for a session with exactly two bound clients and succeeding
collaborators: the first disconnect leaves the session in the registry
(with the remaining client) and performs no teardown; the second
disconnect tears the session down exactly once — one storage save of
the final minutes — and a subsequent lookup of the session id finds
nothing. -/
theorem two_client_disconnect_teardown (svc : Services) (st : ManagerState)
    (meetingId c1 c2 : String) (meeting : ActiveMeeting) (t1 t2 : Nat)
    (hne : c1 ≠ c2)
    (hc1 : mapGet st.clientMeetings c1 = some meetingId)
    (hc2 : mapGet st.clientMeetings c2 = some meetingId)
    (hm : mapGet st.activeMeetings meetingId = some meeting)
    (hcl : meeting.clients = [c1, c2])
    (hsave : ∀ mm, svc.saveMeeting mm = Except.ok ())
    (hemail : ∀ mm, svc.sendMeetingMinutes mm = Except.ok ()) :
    mapGet (handleClientDisconnect svc st c1 t1).1.activeMeetings meetingId
      = some { meeting with clients := [c2] } ∧
    (handleClientDisconnect svc st c1 t1).2 = noEffects ∧
    mapGet (handleClientDisconnect svc (handleClientDisconnect svc st c1 t1).1
        c2 t2).1.activeMeetings meetingId = none ∧
    (handleClientDisconnect svc (handleClientDisconnect svc st c1 t1).1
        c2 t2).2.saveCalls = [finalMinutes meeting t2] := by
  have hfilter1 : meeting.clients.filter (fun c => c != c1) = [c2] := by
    rw [hcl]
    simp [Ne.symm hne]
  have h1 : handleClientDisconnect svc st c1 t1
      = ({ activeMeetings := (mapSet st.activeMeetings meetingId
             ({ meeting with clients := [c2] }))
           clientMeetings := mapDelete st.clientMeetings c1 }, noEffects) := by
    unfold handleClientDisconnect
    rw [hc1]
    simp [hm, hfilter1]
  have hc2' : mapGet (mapDelete st.clientMeetings c1) c2 = some meetingId := by
    rw [mapGet_mapDelete_ne _ _ _ hne]
    exact hc2
  have hm2 : mapGet (mapSet st.activeMeetings meetingId
        ({ meeting with clients := [c2] })) meetingId
      = some ({ meeting with clients := [c2] }) := mapGet_mapSet_self _ _ _
  refine ⟨by rw [h1]; exact hm2, by rw [h1], ?_, ?_⟩
  · rw [h1]
    simp only [handleClientDisconnect, hc2', hm2, endMeeting,
      mapGet_mapSet_self, hsave, hemail, ite_self]
    simp [mapGet_mapDelete_self]
  · rw [h1]
    simp only [handleClientDisconnect, hc2', hm2, endMeeting,
      mapGet_mapSet_self, hsave, hemail, ite_self]
    simp [finalMinutes]

theorem two_client_disconnect_teardown_witness :
    mapGet (handleClientDisconnect demoServices demoState "c1" 50).1.activeMeetings
      "m1" = some { demoMeeting with clients := ["c2"] } ∧
    (handleClientDisconnect demoServices demoState "c1" 50).2 = noEffects ∧
    mapGet (handleClientDisconnect demoServices
        (handleClientDisconnect demoServices demoState "c1" 50).1
        "c2" 99).1.activeMeetings "m1" = none ∧
    (handleClientDisconnect demoServices
        (handleClientDisconnect demoServices demoState "c1" 50).1
        "c2" 99).2.saveCalls = [finalMinutes demoMeeting 99] :=
  two_client_disconnect_teardown demoServices demoState "m1" "c1" "c2"
    demoMeeting 50 99 (by decide) (by decide) (by decide) (by decide) rfl
    (fun _ => rfl) (fun _ => rfl)

/-! ### C4 — watermark advances only on summarizer success -/

/-- A scheduler tick whose summarizer call throws (for every window)
leaves the manager state unchanged. -/
theorem generateSummary_fail_fix (svc : Services) (st : ManagerState)
    (meetingId : String) (t : Nat)
    (hfail : ∀ tr wm, ∃ e, svc.summarize tr wm t = Except.error e) :
    (generateSummary svc st meetingId t).1 = st := by
  unfold generateSummary
  cases hm : mapGet st.activeMeetings meetingId with
  | none => rfl
  | some meeting =>
    by_cases hw : (meeting.transcript.filter
        (fun chunk => chunk.startTime ≥ meeting.lastSummaryTime)).isEmpty = true
    · simp [hw]
    · obtain ⟨e, he⟩ := hfail (meeting.transcript.filter
        (fun chunk => chunk.startTime ≥ meeting.lastSummaryTime))
        meeting.lastSummaryTime
      simp [hw, he]

/-- A scheduler tick over a non-empty window whose summarizer call
succeeds appends the summary, advances the watermark to the tick time
and broadcasts the summary. -/
theorem generateSummary_success (svc : Services) (st : ManagerState)
    (meetingId : String) (t : Nat) (meeting : ActiveMeeting) (s : Summary)
    (hm : mapGet st.activeMeetings meetingId = some meeting)
    (hwin : (meeting.transcript.filter
        (fun chunk => chunk.startTime ≥ meeting.lastSummaryTime)).isEmpty = false)
    (hok : svc.summarize (meeting.transcript.filter
        (fun chunk => chunk.startTime ≥ meeting.lastSummaryTime))
        meeting.lastSummaryTime t = Except.ok s) :
    generateSummary svc st meetingId t
      = ({ st with activeMeetings := (mapSet st.activeMeetings meetingId
             ({ meeting with
                  summaries := meeting.summaries ++ [s]
                  lastSummaryTime := t })) },
         { noEffects with
             summarizeCalls := [(meeting.transcript.filter
               (fun chunk => chunk.startTime ≥ meeting.lastSummaryTime),
               meeting.lastSummaryTime, t)]
             sentMessages := [(meetingId, WSMessage.summary s)] }) := by
  unfold generateSummary
  rw [hm]
  simp [hwin, hok]

/-- A sequence of ticks whose summarizer calls all throw leaves the
manager state unchanged. -/
theorem runTicks_fail_fix (st : ManagerState) (meetingId : String) :
    ∀ (ticks : List (Services × Nat)),
      (∀ p ∈ ticks, ∀ tr wm, ∃ e, p.1.summarize tr wm p.2 = Except.error e) →
      runTicks st meetingId ticks = st
  | [], _ => rfl
  | p :: rest, h => by
    simp only [runTicks]
    rw [generateSummary_fail_fix p.1 st meetingId p.2 (h p (List.mem_cons_self p rest))]
    exact runTicks_fail_fix st meetingId rest
      (fun q hq => h q (List.mem_cons_of_mem p hq))

/-- C4: the watermark (`lastSummaryTime`) is advanced only by a tick
whose summarizer call succeeds; after any number of consecutive
summarizer-failure ticks over the non-empty window, the state — hence
the watermark and the (initially empty) summaries list — is exactly the
initial one; and a subsequent successful tick at time `t` appends
exactly one summary and sets the watermark to `t`. -/
theorem watermark_advances_only_on_success (st : ManagerState)
    (meetingId : String) (meeting : ActiveMeeting)
    (failTicks : List (Services × Nat)) (svcS : Services) (t : Nat) (s : Summary)
    (hm : mapGet st.activeMeetings meetingId = some meeting)
    (hfail : ∀ p ∈ failTicks, ∀ tr wm, ∃ e, p.1.summarize tr wm p.2 = Except.error e)
    (hwin : (meeting.transcript.filter
        (fun chunk => chunk.startTime ≥ meeting.lastSummaryTime)).isEmpty = false)
    (hs0 : meeting.summaries = [])
    (hok : svcS.summarize (meeting.transcript.filter
        (fun chunk => chunk.startTime ≥ meeting.lastSummaryTime))
        meeting.lastSummaryTime t = Except.ok s) :
    (∀ svc tick meeting',
        mapGet (generateSummary svc st meetingId tick).1.activeMeetings meetingId
          = some meeting' →
        meeting'.lastSummaryTime ≠ meeting.lastSummaryTime →
        ∃ s', svc.summarize (meeting.transcript.filter
          (fun chunk => chunk.startTime ≥ meeting.lastSummaryTime))
          meeting.lastSummaryTime tick = Except.ok s') ∧
    runTicks st meetingId failTicks = st ∧
    mapGet (runTicks st meetingId failTicks).activeMeetings meetingId
      = some meeting ∧
    meeting.summaries = [] ∧
    mapGet (generateSummary svcS (runTicks st meetingId failTicks)
        meetingId t).1.activeMeetings meetingId
      = some { meeting with
                 summaries := meeting.summaries ++ [s]
                 lastSummaryTime := t } := by
  have hrun : runTicks st meetingId failTicks = st :=
    runTicks_fail_fix st meetingId failTicks hfail
  refine ⟨?_, hrun, by rw [hrun]; exact hm, hs0, ?_⟩
  · intro svc tick meeting' h1 h2
    cases hres : svc.summarize (meeting.transcript.filter
        (fun chunk => chunk.startTime ≥ meeting.lastSummaryTime))
        meeting.lastSummaryTime tick with
    | ok s' => exact ⟨s', rfl⟩
    | error e =>
      have hfix : (generateSummary svc st meetingId tick).1 = st := by
        unfold generateSummary
        rw [hm]
        simp [hwin, hres]
      rw [hfix, hm] at h1
      injection h1 with h
      rw [← h] at h2
      exact absurd rfl h2
  · rw [hrun, generateSummary_success svcS st meetingId t meeting s hm hwin hok]
    exact mapGet_mapSet_self _ _ _

theorem watermark_advances_only_on_success_witness :
    runTicks busyState "m1" [(failingSaveServices, 10), (failingSaveServices, 20)]
      = busyState ∧
    mapGet (generateSummary demoServices
        (runTicks busyState "m1" [(failingSaveServices, 10), (failingSaveServices, 20)])
        "m1" 30).1.activeMeetings "m1"
      = some { busyMeeting with
                 summaries := busyMeeting.summaries ++ [demoSummary]
                 lastSummaryTime := 30 } := by
  have h := watermark_advances_only_on_success busyState "m1" busyMeeting
    [(failingSaveServices, 10), (failingSaveServices, 20)] demoServices 30
    demoSummary (by decide)
    (by
      intro p hp
      have hp2 : p = (failingSaveServices, 10) ∨ p = (failingSaveServices, 20) := by
        simpa using hp
      rcases hp2 with h | h <;> subst h <;> exact fun tr wm => ⟨"down", rfl⟩)
    (by decide) rfl rfl
  exact ⟨h.2.1, h.2.2.2.2⟩

end WSAssistant
